import Mathlib

/-!
# Verification of the CSV-to-CRM upload gateway (`src/server.js`)

Shallow embedding of the request handlers of `server.js`:
the CSV row cleaning done in the `/api/upload` handler, the upload
orchestration (auth check, file check, parse, dispatch by operation,
result aggregation, staged-file cleanup), the `/api/auth/session`
handler, the schema-listing handlers, and the session-info handler.

JavaScript values are modelled as follows: a possibly-absent string
(`undefined`/`null` vs a string) is `Option String`; JS truthiness of
such a value is `jsTruthy` (absent and `""` are falsy); a parsed CSV row
(a JS object produced by `csv-parse` with `columns: true`) is an
insertion-ordered association list `List (String × Option String)`; a
record sent to the CRM adapter is `List (String × String)`.  The CRM
client library (`jsforce`) is an opaque collaborator: each handler takes
the adapter's answer (or an adapter oracle) as a parameter and reports
which adapter calls it performed.
-/

/-- JS truthiness for a possibly-absent string: `undefined`/`null` and
`""` are falsy, every other string is truthy. -/
def jsTruthy : Option String → Bool
  | none => false
  | some s => !(s == "")

/-! ## CSV row cleaning (`/api/upload` csv.parse data handler, server.js:254-267) -/

/-- A parsed CSV row as delivered by `csv-parse` with `columns: true`:
an insertion-ordered JS object from header name to cell value
(`none` models `null`/`undefined`). -/
abbrev Row := List (String × Option String)

/-- A cleaned record: insertion-ordered JS object from field name to
non-empty value. -/
abbrev Record := List (String × String)

/-- JS object property assignment `m[k] = v`: if the key is present its
value is replaced in place, otherwise the pair is appended. -/
def insertKV (m : Record) (k v : String) : Record :=
  if m.any (fun p => p.1 == k) then
    m.map (fun p => if p.1 == k then (p.1, v) else p)
  else
    m ++ [(k, v)]

/-- One iteration of the `Object.keys(row).forEach` loop of
`server.js:257-263`: trim the key and copy the value unless it is
`null`/`undefined`/`''`. -/
def cleanStep (acc : Record) (kv : String × Option String) : Record :=
  match kv.2 with
  | none => acc
  | some v => if v == "" then acc else insertKV acc kv.1.trim v

/-- `server.js:256-263`: build `cleanRow` by iterating the row's keys in
order. -/
def cleanRow (row : Row) : Record :=
  row.foldl cleanStep []

/-- `server.js:264-266`: a row is pushed onto `records` only when its
cleaned form has at least one key. -/
def processRow (row : Row) : Option Record :=
  let c := cleanRow row
  if c.isEmpty then none else some c

/-- The batch accumulated by the `data` callbacks, in source-file order. -/
def buildRecords (rows : List Row) : List Record :=
  rows.filterMap processRow

/-- Spec-side description of one column: kept exactly when non-empty,
keyed by the trimmed header. -/
def cleanEntry (kv : String × Option String) : Option (String × String) :=
  match kv.2 with
  | none => none
  | some v => if v == "" then none else some (kv.1.trim, v)

/-- Spec-side description of row cleaning: keep exactly the non-empty
columns, key them by the trimmed header, preserve column order. -/
def specCleanRow (row : Row) : Record :=
  row.filterMap cleanEntry

/-! ## CRM adapter interface (opaque collaborator) -/

/-- One per-record outcome reported by the adapter. -/
structure RecordResult where
  id : String
  success : Bool
  errors : List String
deriving Repr, DecidableEq

/-- The adapter's create/update/upsert answer: a single object for a
batch of one, or an array. -/
inductive SFResult where
  | single (r : RecordResult)
  | array (rs : List RecordResult)
deriving Repr, DecidableEq

/-- `server.js:299`: `Array.isArray(result) ? result : [result]`. -/
def normalizeResult : SFResult → List RecordResult
  | .single r => [r]
  | .array rs => rs

/-- A record-writing call placed with the adapter, carrying exactly the
arguments the handler passes through. -/
inductive AdapterCall where
  | create (objectName : Option String) (records : List Record)
  | update (objectName : Option String) (records : List Record)
  | upsert (objectName : Option String) (records : List Record)
      (externalIdField : String)
deriving Repr, DecidableEq

/-- The adapter's reply to a record-writing call: a result, or a thrown
error with a message. -/
inductive CallResult where
  | ok (r : SFResult)
  | err (msg : String)
deriving Repr, DecidableEq

/-! ## Upload orchestrator (`POST /api/upload`, server.js:227-324) -/

/-- Outcome of the CSV parse step (`csv.parse` events): the rows, or a
parse error. -/
inductive ParseOutcome where
  | ok (rows : List Row)
  | err (msg : String)
deriving Repr, DecidableEq

/-- JSON body of the upload response. -/
inductive UploadBody where
  | error (msg : String)
  | summary (totalRecords successful failed : Nat)
      (errors : List (String × List String))
deriving Repr, DecidableEq

/-- Observable outcome of one `/api/upload` request: HTTP status, body,
the adapter calls performed, and whether the staged file is still on
disk after the response. -/
structure UploadOutcome where
  status : Nat
  body : UploadBody
  calls : List AdapterCall
  fileExistsAfter : Bool
deriving Repr, DecidableEq

/-- `server.js:278-293`: the `switch (operation)` dispatch, deciding the
adapter call or the error thrown before any call.  `operation` and
`externalIdField` are absent unless the client sent them;
`if (!externalIdField)` treats `""` like an absent field. -/
def dispatchOperation (objectName operation externalIdField : Option String)
    (records : List Record) : Except String AdapterCall :=
  match operation with
  | some "insert" => .ok (.create objectName records)
  | some "update" => .ok (.update objectName records)
  | some "upsert" =>
      if jsTruthy externalIdField then
        .ok (.upsert objectName records (externalIdField.getD ""))
      else
        .error "External ID field is required for upsert operation"
  | _ => .error "Invalid operation"

/-- The `/api/upload` handler, `server.js:227-324`.  `authed` is whether
`req.session.salesforce` is set; `staged` is whether multer staged a
file (`req.file`); `parsed` is what `csv.parse` produced from the staged
file; `adapter` answers the record-writing call.  Control flow: 401
before anything else when unauthenticated (the staged file, if any, is
left on disk); 400 when no file; then inside `try`: parse, drop empty
rows, reject an empty batch, dispatch by operation, aggregate; the
`catch` deletes the staged file and returns 500 with the error message;
the success path deletes the file before responding. -/
def handleUpload (authed staged : Bool)
    (objectName operation externalIdField : Option String)
    (parsed : ParseOutcome) (adapter : AdapterCall → CallResult) :
    UploadOutcome :=
  if !authed then
    { status := 401, body := .error "Not authenticated", calls := [],
      fileExistsAfter := staged }
  else if !staged then
    { status := 400, body := .error "No file uploaded", calls := [],
      fileExistsAfter := false }
  else
    match parsed with
    | .err msg =>
        { status := 500, body := .error msg, calls := [],
          fileExistsAfter := false }
    | .ok rows =>
        let records := buildRecords rows
        if records.isEmpty then
          { status := 500, body := .error "No valid records found in CSV file",
            calls := [], fileExistsAfter := false }
        else
          match dispatchOperation objectName operation externalIdField records with
          | .error msg =>
              { status := 500, body := .error msg, calls := [],
                fileExistsAfter := false }
          | .ok call =>
              match adapter call with
              | .err msg =>
                  { status := 500, body := .error msg, calls := [call],
                    fileExistsAfter := false }
              | .ok r =>
                  let results := normalizeResult r
                  let failed := results.filter (fun x => !x.success)
                  { status := 200,
                    body := .summary records.length
                      (results.filter (fun x => x.success)).length
                      failed.length
                      (failed.map (fun f => (f.id, f.errors))),
                    calls := [call], fileExistsAfter := false }

/-! ## Session authentication (`POST /api/auth/session`, server.js:95-132) -/

/-- Server-held session state stored on successful authentication. -/
structure SessionData where
  accessToken : String
  instanceUrl : String
  userInfo : String
  authMethod : String
deriving Repr, DecidableEq

/-- Outcome of the adapter's identity check (`conn.identity()`). -/
inductive IdentityResult where
  | ok (userInfo : String)
  | err (msg : String)
deriving Repr, DecidableEq

/-- JSON body of the `/api/auth/session` response. -/
inductive AuthSessionBody where
  | error (msg : String)
  | success (userInfo message : String)
deriving Repr, DecidableEq

/-- Observable outcome of one `/api/auth/session` request: HTTP status,
body, how many adapter identity calls were made, and the session state
stored (if any). -/
structure AuthSessionOutcome where
  status : Nat
  body : AuthSessionBody
  identityCalls : Nat
  sessionSet : Option SessionData
deriving Repr, DecidableEq

/-- `server.js:95-132`: validate presence of both parameters
(`if (!sessionId || !instanceUrl)` → 400), then verify the token with
one identity call; on success store the session and answer 200; on any
identity failure answer 401 with a fixed message that does not mention
the adapter's error. -/
def handleAuthSession (sessionId instanceUrl : Option String)
    (identity : IdentityResult) : AuthSessionOutcome :=
  if !(jsTruthy sessionId) || !(jsTruthy instanceUrl) then
    { status := 400, body := .error "Session ID and Instance URL are required",
      identityCalls := 0, sessionSet := none }
  else
    match identity with
    | .err _ =>
        { status := 401,
          body := .error
            "Invalid session ID or instance URL. Please check your credentials.",
          identityCalls := 1, sessionSet := none }
    | .ok userInfo =>
        { status := 200,
          body := .success userInfo "Successfully authenticated with session ID",
          identityCalls := 1,
          sessionSet := some
            { accessToken := sessionId.getD "", instanceUrl := instanceUrl.getD "",
              userInfo := userInfo, authMethod := "session" } }

/-! ## Session info (`GET /api/auth/session-info`, server.js:154-164) -/

/-- JSON body of the `/api/auth/session-info` response. -/
inductive SessionInfoBody where
  | error (msg : String)
  | info (sessionId instanceUrl authMethod : String)
deriving Repr, DecidableEq

/-- Observable outcome of one `/api/auth/session-info` request.  The
handler's body contains no adapter invocation at all, so
`adapterCalls = 0` on every path. -/
structure SessionInfoOutcome where
  status : Nat
  body : SessionInfoBody
  adapterCalls : Nat
deriving Repr, DecidableEq

/-- `server.js:154-164`: 401 when unauthenticated, otherwise echo the
stored token, instance URL and auth method. -/
def handleSessionInfo (sess : Option SessionData) : SessionInfoOutcome :=
  match sess with
  | none => { status := 401, body := .error "Not authenticated", adapterCalls := 0 }
  | some s =>
      { status := 200, body := .info s.accessToken s.instanceUrl s.authMethod,
        adapterCalls := 0 }

/-! ## Schema browsing (server.js:167-224) -/

/-- One object descriptor from the adapter's global describe. -/
structure SObjectDesc where
  name : String
  label : String
  custom : Bool
  createable : Bool
  updateable : Bool
deriving Repr, DecidableEq

/-- The projection `{name, label, custom}` returned to the client. -/
structure ObjectInfo where
  name : String
  label : String
  custom : Bool
deriving Repr, DecidableEq

/-- The adapter's answer to `describeGlobal()`. -/
inductive DescribeResult where
  | ok (sobjects : List SObjectDesc)
  | err (msg : String)
deriving Repr, DecidableEq

/-- JSON body of the `/api/salesforce/objects` response. -/
inductive ObjectsBody where
  | error (msg : String)
  | objects (objs : List ObjectInfo)
deriving Repr, DecidableEq

/-- Observable outcome of one `/api/salesforce/objects` request. -/
structure ObjectsOutcome where
  status : Nat
  body : ObjectsBody
  describeCalls : Nat
deriving Repr, DecidableEq

/-- `server.js:167-193`: 401 when unauthenticated; otherwise one global
describe; on failure 500 with a fixed message; on success filter to
`createable && updateable`, project to `{name, label, custom}`, and sort
ascending by label.  `label.localeCompare` is locale-dependent, so the
comparison is a parameter `le` and the JS engine's stable sort is
modelled by `List.mergeSort`. -/
def handleListObjects (le : String → String → Bool)
    (sess : Option SessionData) (describe : DescribeResult) : ObjectsOutcome :=
  match sess with
  | none => { status := 401, body := .error "Not authenticated", describeCalls := 0 }
  | some _ =>
      match describe with
      | .err _ =>
          { status := 500, body := .error "Failed to fetch Salesforce objects",
            describeCalls := 1 }
      | .ok sobjects =>
          { status := 200,
            body := .objects
              (((sobjects.filter (fun o => o.createable && o.updateable)).map
                  (fun o => { name := o.name, label := o.label, custom := o.custom }))
                |>.mergeSort (fun a b => le a.label b.label)),
            describeCalls := 1 }

/-- One field descriptor from an object describe. -/
structure FieldDesc where
  name : String
  label : String
  ftype : String
  nillable : Bool
  defaultedOnCreate : Bool
  createable : Bool
  updateable : Bool
  picklistValues : List String
deriving Repr, DecidableEq

/-- The projection returned to the client for one field. -/
structure FieldInfo where
  name : String
  label : String
  ftype : String
  required : Bool
  picklistValues : List String
deriving Repr, DecidableEq

/-- The adapter's answer to `describe(objectName)`. -/
inductive FieldsDescribeResult where
  | ok (fields : List FieldDesc)
  | err (msg : String)
deriving Repr, DecidableEq

/-- JSON body of the `/api/salesforce/objects/:objectName/fields`
response. -/
inductive FieldsBody where
  | error (msg : String)
  | fields (fs : List FieldInfo)
deriving Repr, DecidableEq

/-- Observable outcome of one fields request. -/
structure FieldsOutcome where
  status : Nat
  body : FieldsBody
  describeCalls : Nat
deriving Repr, DecidableEq

/-- `server.js:196-224`: 401 when unauthenticated; otherwise one object
describe; 500 with a fixed message on failure; on success filter to
`createable || updateable`, project (with
`required = !nillable && !defaultedOnCreate`), sort ascending by label. -/
def handleListFields (le : String → String → Bool)
    (sess : Option SessionData) (describe : FieldsDescribeResult) : FieldsOutcome :=
  match sess with
  | none => { status := 401, body := .error "Not authenticated", describeCalls := 0 }
  | some _ =>
      match describe with
      | .err _ =>
          { status := 500, body := .error "Failed to fetch object fields",
            describeCalls := 1 }
      | .ok fields =>
          { status := 200,
            body := .fields
              (((fields.filter (fun f => f.createable || f.updateable)).map
                  (fun f =>
                    { name := f.name, label := f.label, ftype := f.ftype,
                      required := !f.nillable && !f.defaultedOnCreate,
                      picklistValues := f.picklistValues }))
                |>.mergeSort (fun a b => le a.label b.label)),
            describeCalls := 1 }

/-- The projection and filter of `server.js:179-185`: objects that are
both createable and updateable, reduced to `{name, label, custom}`. -/
def projectObjects (sobjects : List SObjectDesc) : List ObjectInfo :=
  (sobjects.filter (fun o => o.createable && o.updateable)).map
    (fun o => { name := o.name, label := o.label, custom := o.custom })

/-- Example adapter reply used in concrete instantiations: two record
results, one success and one failure. -/
def sampleResult : SFResult :=
  .array [{ id := "003a", success := true, errors := [] },
          { id := "003x", success := false, errors := ["DUPLICATE_VALUE"] }]

/-- Example adapter oracle answering every call with `sampleResult`. -/
def sampleAdapter : AdapterCall → CallResult := fun _ => .ok sampleResult

/-! ## Supporting lemmas -/

theorem insertKV_of_not_mem (m : Record) (k v : String)
    (h : ∀ p ∈ m, p.1 ≠ k) : insertKV m k v = m ++ [(k, v)] := by
  have hany : m.any (fun p => p.1 == k) = false := by
    simp only [List.any_eq_false, beq_iff_eq]
    exact h
  simp [insertKV, hany]

theorem cleanEntry_eq_none_iff (kv : String × Option String) :
    cleanEntry kv = none ↔ kv.2 = none ∨ kv.2 = some "" := by
  obtain ⟨k, v⟩ := kv
  rcases v with _ | v
  · simp [cleanEntry]
  · by_cases h : v = "" <;> simp [cleanEntry, h]

theorem foldl_cleanStep_eq (row : Row) : ∀ (acc : Record),
    (∀ kv ∈ row, ∀ p ∈ acc, p.1 ≠ kv.1.trim) →
    (row.map (fun kv => kv.1.trim)).Nodup →
    List.foldl cleanStep acc row = acc ++ specCleanRow row := by
  induction row with
  | nil => intro acc _ _; simp [specCleanRow]
  | cons kv rest ih =>
    intro acc hk hnd
    obtain ⟨k, v⟩ := kv
    simp only [List.map_cons, List.nodup_cons] at hnd
    rw [List.foldl_cons]
    rcases v with _ | v
    · rw [show cleanStep acc (k, none) = acc from rfl]
      rw [ih acc (fun kv' h' => hk kv' (List.mem_cons_of_mem _ h')) hnd.2]
      rw [show specCleanRow ((k, none) :: rest) = specCleanRow rest from by
        simp [specCleanRow, List.filterMap_cons, cleanEntry]]
    · by_cases hemp : v = ""
      · subst hemp
        rw [show cleanStep acc (k, some "") = acc from by simp [cleanStep]]
        rw [ih acc (fun kv' h' => hk kv' (List.mem_cons_of_mem _ h')) hnd.2]
        rw [show specCleanRow ((k, some "") :: rest) = specCleanRow rest from by
          simp [specCleanRow, List.filterMap_cons, cleanEntry]]
      · have hstep : cleanStep acc (k, some v) = insertKV acc k.trim v := by
          simp [cleanStep, hemp]
        have hins : insertKV acc k.trim v = acc ++ [(k.trim, v)] :=
          insertKV_of_not_mem acc k.trim v
            (fun p hp => hk (k, some v) (List.mem_cons_self _ _) p hp)
        have hk' : ∀ kv' ∈ rest, ∀ p ∈ acc ++ [(k.trim, v)], p.1 ≠ kv'.1.trim := by
          intro kv' h' p hp
          rcases List.mem_append.mp hp with hpa | hpb
          · exact hk kv' (List.mem_cons_of_mem _ h') p hpa
          · have hpe : p = (k.trim, v) := by simpa using hpb
            subst hpe
            intro hEq
            apply hnd.1
            have hEq' : k.trim = kv'.1.trim := hEq
            rw [hEq']
            exact List.mem_map_of_mem _ h'
        rw [hstep, hins, ih (acc ++ [(k.trim, v)]) hk' hnd.2]
        rw [show specCleanRow ((k, some v) :: rest)
              = (k.trim, v) :: specCleanRow rest from by
          simp [specCleanRow, List.filterMap_cons, cleanEntry, hemp]]
        simp

theorem cleanRow_eq_specCleanRow (row : Row)
    (hnd : (row.map (fun kv => kv.1.trim)).Nodup) :
    cleanRow row = specCleanRow row := by
  have h := foldl_cleanStep_eq row []
    (fun kv _ p hp => absurd hp (List.not_mem_nil p)) hnd
  simpa [cleanRow] using h

theorem specCleanRow_eq_nil_iff (row : Row) :
    specCleanRow row = [] ↔ ∀ kv ∈ row, kv.2 = none ∨ kv.2 = some "" := by
  rw [specCleanRow, List.filterMap_eq_nil_iff]
  exact ⟨fun h kv hkv => (cleanEntry_eq_none_iff kv).mp (h kv hkv),
         fun h kv hkv => (cleanEntry_eq_none_iff kv).mpr (h kv hkv)⟩

/-! ## Claims -/

/-- C1: a data row whose values are all `null`/`undefined`/`""`
contributes no record to the batch; a row with at least one non-empty
value contributes exactly one record holding precisely its non-empty
columns keyed by the trimmed header names; batch order follows source
order.  The hypothesis that the trimmed header names within a row are
distinct is guaranteed by `csv-parse` with `columns: true` and
`trim: true`, which delivers each row as an object with distinct,
already-trimmed keys. -/
theorem upload_batch_spec (rows : List Row)
    (hnd : ∀ row ∈ rows, (row.map (fun kv => kv.1.trim)).Nodup) :
    buildRecords rows
      = rows.filterMap (fun row =>
          if specCleanRow row = [] then none else some (specCleanRow row)) ∧
    ∀ row : Row,
      (specCleanRow row = [] ↔ ∀ kv ∈ row, kv.2 = none ∨ kv.2 = some "") := by
  refine ⟨?_, specCleanRow_eq_nil_iff⟩
  unfold buildRecords
  apply List.filterMap_congr
  intro row hrow
  unfold processRow
  rw [cleanRow_eq_specCleanRow row (hnd row hrow)]
  by_cases h : specCleanRow row = [] <;> simp [h]

/-- Witness for C1: two one-column rows, one holding `Alice` and one an
empty cell. -/
theorem upload_batch_spec_witness :
    buildRecords [[("Name", some "Alice")], [("Email", some "")]]
      = [[("Name", some "Alice")], [("Email", some "")]].filterMap
          (fun row =>
            if specCleanRow row = [] then none else some (specCleanRow row)) :=
  (upload_batch_spec [[("Name", some "Alice")], [("Email", some "")]]
    (by simp)).1

theorem handleUpload_calls_of_dispatch_ok
    (objectName operation externalIdField : Option String)
    (rows : List Row) (adapter : AdapterCall → CallResult) (call : AdapterCall)
    (hrec : (buildRecords rows).isEmpty = false)
    (hdisp : dispatchOperation objectName operation externalIdField
        (buildRecords rows) = .ok call) :
    (handleUpload true true objectName operation externalIdField
        (.ok rows) adapter).calls = [call] := by
  rcases ha : adapter call with r | msg <;>
    simp [handleUpload, hrec, hdisp, ha]

/-- C2 counterexample: an unauthenticated request whose file the upload
middleware has already staged is answered 401 with the staged file left
on disk. -/
theorem upload_file_cleanup_counterexample :
    (handleUpload false true (some "Account") (some "insert") none
        (.ok []) sampleAdapter).fileExistsAfter = true := by
  rfl

/-- C2 (amended): once the request passes the authentication check, the
staged file no longer exists after the response, on the success path and
on every failure path; an unauthenticated request, however, leaves a
staged file on disk. -/
theorem upload_file_cleanup (staged : Bool)
    (objectName operation externalIdField : Option String)
    (parsed : ParseOutcome) (adapter : AdapterCall → CallResult) :
    (handleUpload true staged objectName operation externalIdField
        parsed adapter).fileExistsAfter = false := by
  cases staged
  · simp [handleUpload]
  · cases parsed with
    | err msg => simp [handleUpload]
    | ok rows =>
      by_cases h : (buildRecords rows).isEmpty
      · simp [handleUpload, h]
      · rcases hd : dispatchOperation objectName operation externalIdField
            (buildRecords rows) with msg | call
        · simp [handleUpload, h, hd]
        · rcases ha : adapter call with r | msg <;>
            simp [handleUpload, h, hd, ha]

/-- C3: without an authenticated session, `/api/auth/session-info`,
`/api/salesforce/objects`, `/api/salesforce/objects/:objectName/fields`
and `/api/upload` all answer 401 and place no adapter call. -/
theorem unauthenticated_requests_401 (le : String → String → Bool)
    (d : DescribeResult) (fd : FieldsDescribeResult) (staged : Bool)
    (objectName operation externalIdField : Option String)
    (parsed : ParseOutcome) (adapter : AdapterCall → CallResult) :
    (handleSessionInfo none).status = 401 ∧
    (handleSessionInfo none).adapterCalls = 0 ∧
    (handleListObjects le none d).status = 401 ∧
    (handleListObjects le none d).describeCalls = 0 ∧
    (handleListFields le none fd).status = 401 ∧
    (handleListFields le none fd).describeCalls = 0 ∧
    (handleUpload false staged objectName operation externalIdField
        parsed adapter).status = 401 ∧
    (handleUpload false staged objectName operation externalIdField
        parsed adapter).calls = [] :=
  ⟨rfl, rfl, rfl, rfl, rfl, rfl, rfl, rfl⟩

/-- C4: on a successful upload the response aggregates over the
normalized result array: `totalRecords` is the size of the parsed
batch, `successful` counts results with `success = true`, `failed`
counts the rest, and `errors` lists `{id, errors}` of exactly the
failed results — whether the adapter answered with a single object or
an array. -/
theorem upload_result_aggregation (rows : List Row)
    (objectName operation externalIdField : Option String)
    (adapter : AdapterCall → CallResult) (call : AdapterCall) (r : SFResult)
    (hrec : buildRecords rows ≠ [])
    (hdisp : dispatchOperation objectName operation externalIdField
        (buildRecords rows) = .ok call)
    (hada : adapter call = .ok r) :
    handleUpload true true objectName operation externalIdField
        (.ok rows) adapter
      = { status := 200,
          body := .summary (buildRecords rows).length
            ((normalizeResult r).countP (fun x => x.success))
            ((normalizeResult r).countP (fun x => !x.success))
            (((normalizeResult r).filter (fun x => !x.success)).map
              (fun f => (f.id, f.errors))),
          calls := [call], fileExistsAfter := false } := by
  have hne : (buildRecords rows).isEmpty = false := by
    simpa [List.isEmpty_iff] using hrec
  simp [handleUpload, hne, hdisp, hada, List.countP_eq_length_filter]

/-- Witness for C4: a one-row batch updated against an adapter that
reports one success and one failure. -/
theorem upload_result_aggregation_witness :
    buildRecords [[("Id", some "1")]] ≠ [] ∧
    handleUpload true true (some "Contact") (some "update") none
        (.ok [[("Id", some "1")]]) sampleAdapter
      = { status := 200,
          body := .summary (buildRecords [[("Id", some "1")]]).length
            ((normalizeResult sampleResult).countP (fun x => x.success))
            ((normalizeResult sampleResult).countP (fun x => !x.success))
            (((normalizeResult sampleResult).filter (fun x => !x.success)).map
              (fun f => (f.id, f.errors))),
          calls := [.update (some "Contact") (buildRecords [[("Id", some "1")]])],
          fileExistsAfter := false } := by
  have hne : buildRecords [[("Id", some "1")]] ≠ [] := by
    simp [buildRecords, processRow, cleanRow, cleanStep, insertKV]
  exact ⟨hne, upload_result_aggregation _ _ _ _ _ _ _ hne rfl rfl⟩

/-- C5 counterexample: on an empty cleaned batch the handler's message
is `"No valid records found in CSV file"`, not the claimed
`"No valid records found"`, and it is surfaced with status 500 by the
generic catch, not as a 400 validation answer. -/
theorem upload_empty_batch_counterexample :
    (handleUpload true true (some "Account") (some "insert") none
        (.ok []) sampleAdapter).body
      ≠ UploadBody.error "No valid records found" ∧
    (handleUpload true true (some "Account") (some "insert") none
        (.ok []) sampleAdapter).body
      = UploadBody.error "No valid records found in CSV file" ∧
    (handleUpload true true (some "Account") (some "insert") none
        (.ok []) sampleAdapter).status = 500 := by
  refine ⟨?_, rfl, rfl⟩
  decide

/-- C5 (amended): when the cleaned batch is empty the upload fails with
the error message `"No valid records found in CSV file"`, surfaced with
status 500, and no adapter call is placed. -/
theorem upload_empty_batch_rejected
    (objectName operation externalIdField : Option String)
    (rows : List Row) (adapter : AdapterCall → CallResult)
    (hempty : buildRecords rows = []) :
    handleUpload true true objectName operation externalIdField
        (.ok rows) adapter
      = { status := 500, body := .error "No valid records found in CSV file",
          calls := [], fileExistsAfter := false } := by
  simp [handleUpload, hempty]

/-- Witness for C5 (amended): a CSV whose single row is entirely empty. -/
theorem upload_empty_batch_rejected_witness :
    buildRecords [[("Name", some "")]] = [] ∧
    handleUpload true true (some "Account") (some "insert") none
        (.ok [[("Name", some "")]]) sampleAdapter
      = { status := 500, body := .error "No valid records found in CSV file",
          calls := [], fileExistsAfter := false } :=
  ⟨rfl, upload_empty_batch_rejected _ _ _ _ _ rfl⟩

/-- C6: an authenticated upsert without an `externalIdField` fails with
the dedicated error before any adapter call. -/
theorem upsert_requires_external_id (objectName : Option String)
    (rows : List Row) (adapter : AdapterCall → CallResult)
    (hrec : buildRecords rows ≠ []) :
    handleUpload true true objectName (some "upsert") none
        (.ok rows) adapter
      = { status := 500,
          body := .error "External ID field is required for upsert operation",
          calls := [], fileExistsAfter := false } := by
  have hne : (buildRecords rows).isEmpty = false := by
    simpa [List.isEmpty_iff] using hrec
  simp [handleUpload, hne, dispatchOperation, jsTruthy]

/-- Witness for C6: a one-row batch upserted with no external id field. -/
theorem upsert_requires_external_id_witness :
    buildRecords [[("Id", some "1")]] ≠ [] ∧
    handleUpload true true (some "Account") (some "upsert") none
        (.ok [[("Id", some "1")]]) sampleAdapter
      = { status := 500,
          body := .error "External ID field is required for upsert operation",
          calls := [], fileExistsAfter := false } := by
  have hne : buildRecords [[("Id", some "1")]] ≠ [] := by
    simp [buildRecords, processRow, cleanRow, cleanStep, insertKV]
  exact ⟨hne, upsert_requires_external_id _ _ _ hne⟩

/-- C7: `/api/auth/session` with a missing sessionId or instanceUrl
answers 400 and performs no identity call. -/
theorem auth_session_requires_params (sessionId instanceUrl : Option String)
    (identity : IdentityResult)
    (h : sessionId = none ∨ instanceUrl = none) :
    (handleAuthSession sessionId instanceUrl identity).status = 400 ∧
    (handleAuthSession sessionId instanceUrl identity).identityCalls = 0 := by
  rcases h with h | h <;> subst h <;> simp [handleAuthSession, jsTruthy]

/-- Witness for C7: a request carrying only an instance URL. -/
theorem auth_session_requires_params_witness :
    (handleAuthSession none (some "https://example.my.salesforce.com")
        (.ok "user")).status = 400 ∧
    (handleAuthSession none (some "https://example.my.salesforce.com")
        (.ok "user")).identityCalls = 0 :=
  auth_session_requires_params _ _ _ (Or.inl rfl)

/-- C8: with both parameters present, a failed identity verification is
answered 401 with a fixed generic message; the response does not depend
on the adapter's error, so any two runs differing only in that error
produce identical outcomes. -/
theorem auth_session_failure_uniform (sessionId instanceUrl : Option String)
    (h1 : jsTruthy sessionId = true) (h2 : jsTruthy instanceUrl = true)
    (e1 e2 : String) :
    handleAuthSession sessionId instanceUrl (.err e1)
      = handleAuthSession sessionId instanceUrl (.err e2) ∧
    (handleAuthSession sessionId instanceUrl (.err e1)).status = 401 ∧
    (handleAuthSession sessionId instanceUrl (.err e1)).body
      = .error "Invalid session ID or instance URL. Please check your credentials." := by
  simp [handleAuthSession, h1, h2]

/-- Witness for C8: two runs whose identity checks fail for different
reasons. -/
theorem auth_session_failure_uniform_witness :
    jsTruthy (some "00Dxx0000001") = true ∧
    jsTruthy (some "https://example.my.salesforce.com") = true ∧
    (handleAuthSession (some "00Dxx0000001")
        (some "https://example.my.salesforce.com") (.err "session expired")
      = handleAuthSession (some "00Dxx0000001")
        (some "https://example.my.salesforce.com") (.err "network down") ∧
    (handleAuthSession (some "00Dxx0000001")
        (some "https://example.my.salesforce.com")
        (.err "session expired")).status = 401 ∧
    (handleAuthSession (some "00Dxx0000001")
        (some "https://example.my.salesforce.com")
        (.err "session expired")).body
      = .error "Invalid session ID or instance URL. Please check your credentials.") :=
  ⟨by decide, by decide,
    auth_session_failure_uniform _ _ (by decide) (by decide)
      "session expired" "network down"⟩

/-- C9: an authenticated object-list request with a successful global
describe answers 200 with exactly the objects that are both createable
and updateable, projected to `{name, label, custom}`, sorted ascending
by label under the (locale-dependent) comparison `le`. -/
theorem list_objects_spec (le : String → String → Bool)
    (htrans : ∀ a b c, le a b = true → le b c = true → le a c = true)
    (htotal : ∀ a b, (le a b || le b a) = true)
    (s : SessionData) (sobjects : List SObjectDesc) :
    (handleListObjects le (some s) (.ok sobjects)).status = 200 ∧
    (handleListObjects le (some s) (.ok sobjects)).body
      = .objects ((projectObjects sobjects).mergeSort
          (fun a b => le a.label b.label)) ∧
    ((projectObjects sobjects).mergeSort
        (fun a b => le a.label b.label)).Perm (projectObjects sobjects) ∧
    ((projectObjects sobjects).mergeSort
        (fun a b => le a.label b.label)).Pairwise
      (fun a b => le a.label b.label = true) := by
  refine ⟨rfl, rfl, List.mergeSort_perm _ _, ?_⟩
  exact List.sorted_mergeSort
    (fun a b c => htrans a.label b.label c.label)
    (fun a b => htotal a.label b.label) _

/-- Witness for C9: dictionary order on labels, one included and one
permission-filtered object. -/
theorem list_objects_spec_witness :
    (handleListObjects (fun a b => decide (a ≤ b))
        (some { accessToken := "t", instanceUrl := "u", userInfo := "i",
                authMethod := "session" })
        (.ok [{ name := "B__c", label := "Beta", custom := true,
                createable := true, updateable := true },
              { name := "A__c", label := "Alpha", custom := true,
                createable := true, updateable := false }])).status = 200 ∧
    (handleListObjects (fun a b => decide (a ≤ b))
        (some { accessToken := "t", instanceUrl := "u", userInfo := "i",
                authMethod := "session" })
        (.ok [{ name := "B__c", label := "Beta", custom := true,
                createable := true, updateable := true },
              { name := "A__c", label := "Alpha", custom := true,
                createable := true, updateable := false }])).body
      = .objects ((projectObjects
          [{ name := "B__c", label := "Beta", custom := true,
             createable := true, updateable := true },
           { name := "A__c", label := "Alpha", custom := true,
             createable := true, updateable := false }]).mergeSort
          (fun a b => decide (a.label ≤ b.label))) := by
  have h := list_objects_spec (fun a b => decide (a ≤ b))
    (fun a b c hab hbc => by
      simp only [decide_eq_true_eq] at *
      exact le_trans hab hbc)
    (fun a b => by
      rcases le_total a b with h | h <;> simp [h])
    { accessToken := "t", instanceUrl := "u", userInfo := "i",
      authMethod := "session" }
    [{ name := "B__c", label := "Beta", custom := true,
       createable := true, updateable := true },
     { name := "A__c", label := "Alpha", custom := true,
       createable := true, updateable := false }]
  exact ⟨h.1, h.2.1⟩

/-- C10: the upload handler never validates `objectName`: for each
operation the adapter call carries `objectName` exactly as supplied —
also when it is absent or the empty string. -/
theorem upload_object_name_passthrough (objectName : Option String)
    (rows : List Row) (adapter : AdapterCall → CallResult) (e : String)
    (hrec : buildRecords rows ≠ []) (he : e ≠ "") :
    (handleUpload true true objectName (some "insert") none
        (.ok rows) adapter).calls
      = [.create objectName (buildRecords rows)] ∧
    (handleUpload true true objectName (some "update") none
        (.ok rows) adapter).calls
      = [.update objectName (buildRecords rows)] ∧
    (handleUpload true true objectName (some "upsert") (some e)
        (.ok rows) adapter).calls
      = [.upsert objectName (buildRecords rows) e] := by
  have hne : (buildRecords rows).isEmpty = false := by
    simpa [List.isEmpty_iff] using hrec
  refine ⟨?_, ?_, ?_⟩
  · exact handleUpload_calls_of_dispatch_ok _ _ _ _ _ _ hne rfl
  · exact handleUpload_calls_of_dispatch_ok _ _ _ _ _ _ hne rfl
  · exact handleUpload_calls_of_dispatch_ok _ _ _ _ _ _ hne
      (by simp [dispatchOperation, jsTruthy, he])

/-- Witness for C10: a missing `objectName` is passed through to the
adapter unchanged. -/
theorem upload_object_name_passthrough_witness :
    buildRecords [[("Id", some "1")]] ≠ [] ∧
    ("External_Id__c" : String) ≠ "" ∧
    (handleUpload true true none (some "insert") none
        (.ok [[("Id", some "1")]]) sampleAdapter).calls
      = [.create none (buildRecords [[("Id", some "1")]])] := by
  have hne : buildRecords [[("Id", some "1")]] ≠ [] := by
    simp [buildRecords, processRow, cleanRow, cleanStep, insertKV]
  exact ⟨hne, by decide,
    (upload_object_name_passthrough none _ sampleAdapter "External_Id__c"
      hne (by decide)).1⟩
